import Mathlib

/-!
Verification development for the business-card generator's core subsystem:
the dual-model generation workflow (`src/hybrid/modern_workflow.py`,
class `ModernHybridWorkflow`) and the batch orchestrator
(`src/batch/batch_processor.py`, class `BatchProcessor`).

Modelling conventions:
- Python exceptions are modelled with `Except PyErr`; a `try/except` block
  becomes an explicit `match` on the `Except` value.
- Raw image bytes are `List Nat`; PIL decoding (`Image.open`) is an external
  effect, supplied by the environment as `decode : Bytes → Option PILImage`
  (`none` models `Image.open` raising).
- Network calls to the two providers are supplied by the environment as
  functions returning `Except String ...` (the `.error` case models the SDK
  call raising).
- Monetary amounts are modelled as integers counting thousandths of a USD,
  the exact values of the Python float literals (0.02, 0.07, 0.19, 0.005,
  0.0 become 20, 70, 190, 5, 0); the claims proved here (table lookups,
  non-negativity, sums where every other summand is exactly 0.0) are
  insensitive to binary floating point rounding.
- Wall-clock readings (`datetime.now()`, `time.time()`) do not influence any
  control flow except the batch-completion statistics, where the division
  `total_time / len(requests)` raises `ZeroDivisionError` for an empty batch;
  elapsed-time *values* are abstracted to 0.
- Filesystem side effects are logged as a `List FsEvent` returned alongside
  the result (writer style), so that "nothing is written to disk" is a
  provable statement.
- Logging (`print`, `structlog`) has no observable effect and is omitted.
-/

/-- Python exception values, as far as this model distinguishes them. -/
inductive PyErr where
  | valueError (msg : String)
  | zeroDivisionError
  deriving DecidableEq, Repr

/-- The text `str(e)` of a Python exception. -/
def PyErr.msg : PyErr → String
  | .valueError m => m
  | .zeroDivisionError => "division by zero"

/-- Decidable equality on `Except`, used to evaluate the model on concrete
inputs. -/
instance {ε α : Type} [DecidableEq ε] [DecidableEq α] :
    DecidableEq (Except ε α) := fun x y =>
  match x, y with
  | .ok a, .ok b =>
      if h : a = b then .isTrue (h ▸ rfl)
      else .isFalse (fun hc => h (Except.ok.inj hc))
  | .error e, .error f =>
      if h : e = f then .isTrue (h ▸ rfl)
      else .isFalse (fun hc => h (Except.error.inj hc))
  | .ok _, .error _ => .isFalse (fun hc => Except.noConfusion hc)
  | .error _, .ok _ => .isFalse (fun hc => Except.noConfusion hc)

/-- Raw image payload bytes. -/
abbrev Bytes := List Nat

/-- The decoded-image attributes inspected by the validator
(`PIL.Image.Image.width / .height / .mode`). -/
structure PILImage where
  width : Nat
  height : Nat
  mode : String
  deriving DecidableEq, Repr

/-- `class ModelType(Enum)` from `modern_workflow.py`. -/
inductive ModelType where
  | gpt_image_1
  | gemini_flash
  | auto
  deriving DecidableEq, Repr

/-- The `.value` string of each `ModelType` member. -/
def ModelType.value : ModelType → String
  | .gpt_image_1 => "gpt-image-1"
  | .gemini_flash => "gemini-2.5-flash-image-preview"
  | .auto => "auto"

/-- `ModelType(s)`: the enum constructor by value; `none` models the
`ValueError` raised on an unrecognized string. -/
def ModelType.ofValue (s : String) : Option ModelType :=
  if s = "gpt-image-1" then some .gpt_image_1
  else if s = "gemini-2.5-flash-image-preview" then some .gemini_flash
  else if s = "auto" then some .auto
  else none

/-- `@dataclass GenerationResult` from `modern_workflow.py`. -/
structure GenerationResult where
  success : Bool
  image_data : Option Bytes := none
  filepath : Option String := none
  model_used : Option String := none
  cost_estimate : Int := 0
  processing_time : Int := 0
  error_message : Option String := none
  deriving DecidableEq, Repr

/-- `ModernHybridWorkflow.COSTS` in thousandths of a USD (the float
literals 0.02 / 0.07 / 0.19 / 0.005 scaled exactly). -/
def COSTS (key : String) : Int :=
  if key = "gpt_image_1_low" then 20
  else if key = "gpt_image_1_medium" then 70
  else if key = "gpt_image_1_high" then 190
  else if key = "gemini_flash" then 5
  else 0

/-- Filesystem side effects of the workflow, in program order. -/
inductive FsEvent where
  | mkdirParents (path : String)
  | write (path : String) (data : Bytes)
  deriving DecidableEq, Repr

/-- The environment of one `ModernHybridWorkflow` instance: the two
construction-time availability flags, the external PIL decoder, the two
provider SDK calls, the filesystem's response to a write, and the clock.

`gptCall prompt size quality` models
`openai_client.images.generate(...)` followed by
`base64.b64decode(response.data[0].b64_json)`: `.error` is any exception
raised by that pair, `.ok` the decoded bytes.

`geminiCall prompt` models `gemini_client.models.generate_content(...)`
followed by the inline-data extraction loop: `.error` is an exception from
the call or extraction, `.ok none` a response with no inline image part,
`.ok (some bs)` the extracted bytes.

`writeOutcome path` models `open(path,'wb')` / `f.write` / the
`st_size == 0` re-check in `_save_image`: `.error` is a raised `OSError`
or the empty-file condition.

`now` is `datetime.now()` as `(year, month, day, hour, minute, second)`. -/
structure Env where
  openai_available : Bool
  gemini_available : Bool
  decode : Bytes → Option PILImage
  gptCall : String → String → String → Except String Bytes
  geminiCall : String → Except String (Option Bytes)
  writeOutcome : String → Except String Unit
  now : Nat × Nat × Nat × Nat × Nat × Nat

/-- `ModernHybridWorkflow._select_model`: intelligent model selection from
the requested model, the quality string and the availability flags. -/
def selectModel (openaiAvailable geminiAvailable : Bool)
    (requested : ModelType) (quality : String) : Option ModelType :=
  -- explicit request honored when available; otherwise fall through to AUTO
  if requested = .gpt_image_1 ∧ openaiAvailable then some .gpt_image_1
  else if requested = .gemini_flash ∧ geminiAvailable then some .gemini_flash
  else
    -- auto selection logic
    if quality = "production" ∧ openaiAvailable then some .gpt_image_1
    else if (quality = "draft" ∨ quality = "review") ∧ geminiAvailable then
      some .gemini_flash
    else if openaiAvailable then some .gpt_image_1
    else if geminiAvailable then some .gemini_flash
    else none

/-- Modelled from the spec: the provider-selection rule as §4.2 step 1 and
P2/P3 word it, used only as the refinement target for the selection claim.
An explicitly requested provider is used iff its availability flag is set,
otherwise the auto rule applies: production prefers GPT Image 1 when
available else Gemini; draft/review prefer Gemini when available else
GPT Image 1; `none` only when neither provider is available. -/
def specSelectProvider (openaiAvailable geminiAvailable : Bool)
    (requested : ModelType) (quality : String) : Option ModelType :=
  let autoRule : Option ModelType :=
    if quality = "production" then
      if openaiAvailable then some .gpt_image_1
      else if geminiAvailable then some .gemini_flash
      else none
    else
      if geminiAvailable then some .gemini_flash
      else if openaiAvailable then some .gpt_image_1
      else none
  match requested with
  | .gpt_image_1 => if openaiAvailable then some .gpt_image_1 else autoRule
  | .gemini_flash => if geminiAvailable then some .gemini_flash else autoRule
  | .auto => autoRule

/-- `ModernHybridWorkflow._validate_image`: raises `ValueError` unless the
bytes decode, both dimensions reach 512 and the mode is RGB or RGBA. Any
inner exception is re-wrapped with the `"Image validation failed: "` text. -/
def validateImage (decode : Bytes → Option PILImage) (imageData : Bytes) :
    Except PyErr Unit :=
  match decode imageData with
  | none =>
      .error (.valueError "Image validation failed: cannot identify image file")
  | some img =>
      if img.width < 512 ∨ img.height < 512 then
        .error (.valueError
          "Image validation failed: Generated image resolution too low")
      else if ¬(img.mode = "RGB" ∨ img.mode = "RGBA") then
        .error (.valueError "Image validation failed: Invalid image color mode")
      else .ok ()

/-- Substring search helper: is `pat` a prefix of `s`? (over char lists). -/
def hasStart : List Char → List Char → Bool
  | _, [] => true
  | [], _ :: _ => false
  | a :: s, b :: p => a == b && hasStart s p

/-- Substring search helper: does `s` contain `pat` anywhere? -/
def hasSub : List Char → List Char → Bool
  | [], pat => pat.isEmpty
  | a :: s, pat => hasStart (a :: s) pat || hasSub s pat

/-- The Python `pat in s` test on strings. -/
def strContains (s pat : String) : Bool := hasSub s.data pat.data

/-- Zero-padded 2-digit decimal field of `strftime`. -/
def pad2 (n : Nat) : String :=
  if n < 10 then "0" ++ toString n else toString n

/-- Zero-padded 4-digit decimal field of `strftime` (`%Y`). -/
def pad4 (n : Nat) : String :=
  if n < 10 then "000" ++ toString n
  else if n < 100 then "00" ++ toString n
  else if n < 1000 then "0" ++ toString n
  else toString n

/-- `datetime.now().strftime("%Y%m%d_%H%M%S")` on a clock reading. -/
def fmtTimestamp : Nat × Nat × Nat × Nat × Nat × Nat → String
  | (y, mo, d, h, mi, s) =>
      pad4 y ++ pad2 mo ++ pad2 d ++ "_" ++ pad2 h ++ pad2 mi ++ pad2 s

/-- `'GPT1' if 'gpt' in model else 'GEMINI'` from `_save_image`. -/
def modelShort (model : String) : String :=
  if strContains model "gpt" then "GPT1" else "GEMINI"

/-- `self.production_dir` (`str(Path("./output/production"))`). -/
def productionDir : String := "output/production"

/-- `self.drafts_dir` (`str(Path("./output/drafts"))`). -/
def draftsDir : String := "output/drafts"

/-- `ModernHybridWorkflow.COLORS`. -/
def COLORS (key : String) : String :=
  if key = "deep_obsidian_black" then "#0A0A0A"
  else if key = "emerald_glow" then "#00C9A7"
  else if key = "arctic_white" then "#FAFAFA"
  else if key = "charcoal_shadow" then "#1A1A1A"
  else ""

/-- `ModernHybridWorkflow.BRAND_INFO`. -/
def BRAND_INFO (key : String) : String :=
  if key = "name" then "Alex Shafiro PT / DPT / OCS / CSCS"
  else if key = "title" then "Rehabilitation Specialist"
  else if key = "company" then "A Stronger Life"
  else if key = "tagline" then "Revolutionary Rehabilitation"
  else if key = "email" then "admin@aslstrong.com"
  else if key = "website" then "www.aslstrong.com"
  else if key = "location" then "Stamford, CT"
  else if key = "phone" then "+1 (XXX) XXX-XXXX"
  else ""

/-- `ModernHybridWorkflow._build_universal_prompt`: pure string assembly of
the provider-agnostic prompt from concept, side and the brand constants. -/
def buildUniversalPrompt (concept side : String) : String :=
  let basePrompt :=
    "Professional business card design for premium rehabilitation practice:\n\n"
    ++ "CRITICAL SPECIFICATIONS:\n"
    ++ "- Completely flat 2D design (NO 3D mockups, NO shadows, NO perspective)\n"
    ++ "- Business card proportions: 3.5\" × 2.0\" \n"
    ++ "- Deep matte black background (" ++ COLORS "deep_obsidian_black" ++ ")\n"
    ++ "- Single emerald accent color (" ++ COLORS "emerald_glow"
    ++ ") for highlights only\n"
    ++ "- Arctic white text (" ++ COLORS "arctic_white"
    ++ ") for maximum contrast\n"
    ++ "- \"Equinox meets Mayo Clinic\" aesthetic - sophisticated restraint\n\n"
    ++ "BRAND INFORMATION:\n"
    ++ "Name: " ++ BRAND_INFO "name" ++ "\n"
    ++ "Company: " ++ BRAND_INFO "company" ++ "\n"
    ++ "Tagline: " ++ BRAND_INFO "tagline" ++ "\n"
    ++ "Email: " ++ BRAND_INFO "email" ++ "\n"
    ++ "Website: " ++ BRAND_INFO "website" ++ "\n"
    ++ "Location: " ++ BRAND_INFO "location"
  let layoutSpec :=
    if side = "front" then
      "\nFRONT CARD LAYOUT:\n"
      ++ "- Logo area (top-left): \"A Stronger Life\" logo placeholder\n"
      ++ "- Name/title block (center-left): Primary prominence for name\n"
      ++ "- Contact information (left column): Phone, email, website, location\n"
      ++ "- QR code area (bottom-right): Small QR code placeholder\n"
      ++ "- Professional hierarchy with generous negative space"
    else
      "\nBACK CARD LAYOUT:\n"
      ++ "- Centered tagline: \"Revolutionary Rehabilitation\" \n"
      ++ "- Bold uppercase lettering with increased letter spacing\n"
      ++ "- Optional: Subtle company logo watermark at 3% opacity maximum\n"
      ++ "- Maximum negative space for sophisticated impact"
  let conceptStyle :=
    if concept = "Clinical-Precision" then
      "Medical authority focus, symmetric layout, clinical trust"
    else if concept = "Athletic-Edge" then
      "Dynamic energy, performance-focused design elements"
    else if concept = "Luxury-Wellness" then
      "Equinox-level luxury, spa-like sophistication"
    else "Premium professional"
  let styleSpec := "\nDESIGN CONCEPT: " ++ conceptStyle
  basePrompt ++ layoutSpec ++ styleSpec
    ++ "\n\nOUTPUT: Flat artboard design ready for professional printing."

/-- One row of the `quality_settings` dict in `_generate_with_gpt_image`. -/
structure GptQualitySettings where
  quality : String
  size : String
  cost : Int
  deriving DecidableEq, Repr

/-- `quality_settings.get(quality, quality_settings["production"])`: the
OpenAI parameter row for a quality string, defaulting to production. -/
def qualitySettings (q : String) : GptQualitySettings :=
  if q = "draft" then ⟨"low", "1024x1024", COSTS "gpt_image_1_low"⟩
  else if q = "review" then ⟨"medium", "1536x1024", COSTS "gpt_image_1_medium"⟩
  else if q = "production" then ⟨"high", "1536x1024", COSTS "gpt_image_1_high"⟩
  else ⟨"high", "1536x1024", COSTS "gpt_image_1_high"⟩

/-- `ModernHybridWorkflow._generate_with_gpt_image`. -/
def generateWithGptImage (env : Env) (prompt quality : String) :
    GenerationResult :=
  match env.gptCall prompt (qualitySettings quality).size
      (qualitySettings quality).quality with
  | .error e =>
      { success := false
        error_message := some ("OpenAI generation failed: " ++ e)
        model_used := some "gpt-image-1" }
  | .ok imageData =>
      match validateImage env.decode imageData with
      | .error err =>
          { success := false
            error_message := some ("OpenAI generation failed: " ++ err.msg)
            model_used := some "gpt-image-1" }
      | .ok () =>
          { success := true
            image_data := some imageData
            model_used := some "gpt-image-1"
            cost_estimate := (qualitySettings quality).cost }

/-- `ModernHybridWorkflow._generate_with_gemini`. The `if not image_data:`
test treats both a missing inline part and `b""` as "no image data". -/
def generateWithGemini (env : Env) (prompt : String) : GenerationResult :=
  match env.geminiCall prompt with
  | .error e =>
      { success := false
        error_message := some ("Gemini generation failed: " ++ e)
        model_used := some "gemini-2.5-flash-image-preview" }
  | .ok imageDataOpt =>
      match imageDataOpt with
      | none =>
          { success := false
            error_message := some "No image data in Gemini response"
            model_used := some "gemini-2.5-flash-image-preview" }
      | some imageData =>
          if imageData.isEmpty then
            { success := false
              error_message := some "No image data in Gemini response"
              model_used := some "gemini-2.5-flash-image-preview" }
          else
            match validateImage env.decode imageData with
            | .error err =>
                { success := false
                  error_message := some ("Gemini generation failed: " ++ err.msg)
                  model_used := some "gemini-2.5-flash-image-preview" }
            | .ok () =>
                { success := true
                  image_data := some imageData
                  model_used := some "gemini-2.5-flash-image-preview"
                  cost_estimate := COSTS "gemini_flash" }

/-- `ModernHybridWorkflow._save_image`: builds the timestamped filename,
ensures the parent directory exists, writes the bytes and re-checks the
file; a failed or empty write raises `ValueError("Image save failed: ...")`
(and no completed write is recorded). -/
def saveImage (env : Env) (imageData : Bytes) (concept side model : String)
    (directory : String) : Except PyErr String × List FsEvent :=
  let timestamp := fmtTimestamp env.now
  let filename := "ASL_Alex_Shafiro_" ++ concept ++ "_" ++ side ++ "_"
    ++ modelShort model ++ "_" ++ timestamp ++ ".png"
  let filepath := directory ++ "/" ++ filename
  match env.writeOutcome filepath with
  | .ok () => (.ok filepath, [.mkdirParents directory, .write filepath imageData])
  | .error e =>
      (.error (.valueError ("Image save failed: " ++ e)), [.mkdirParents directory])

/-- The early-return result of `generate_card` when `_select_model` yields
no model. -/
def noSuitableModelResult : GenerationResult :=
  { success := false
    error_message := some "No suitable model available for request" }

/-- The `if result.success:` block of `generate_card`: on success, pick the
quality-tier directory and persist through `_save_image` (which may raise),
then stamp the filepath and the elapsed time onto the result; on failure,
hand the result back untouched. -/
def persistStep (env : Env) (concept side quality modelValue : String)
    (result : GenerationResult) :
    Except PyErr GenerationResult × List FsEvent :=
  if result.success then
    match saveImage env (result.image_data.getD []) concept side modelValue
        (if quality = "production" then productionDir else draftsDir) with
    | (.ok fp, evs) =>
        (.ok { result with filepath := some fp, processing_time := 0 }, evs)
    | (.error e, evs) => (.error e, evs)
  else (.ok result, [])

/-- The body of `generate_card`'s `try:` block, after model selection and
prompt construction; `.error` is an exception escaping the block (only
`_save_image` can raise here). -/
def generateCardBody (env : Env) (concept side quality : String)
    (selected : ModelType) (prompt : String) :
    Except PyErr GenerationResult × List FsEvent :=
  match selected with
  | .gpt_image_1 =>
      persistStep env concept side quality selected.value
        (generateWithGptImage env prompt quality)
  | .gemini_flash =>
      persistStep env concept side quality selected.value
        (generateWithGemini env prompt)
  | .auto =>
      (.ok { success := false
             error_message := some ("Unknown model: " ++ selected.value) }, [])

/-- `ModernHybridWorkflow.generate_card`: the engine's public operation.
The outer `Except` expresses the public boundary; the enclosing
`try/except` converts every exception from the body into a failed
`GenerationResult` (theorem `c4_generate_card_never_raises`). -/
def generateCard (env : Env) (concept side : String) (model : ModelType)
    (quality : String) : Except PyErr GenerationResult × List FsEvent :=
  match selectModel env.openai_available env.gemini_available model quality with
  | none => (.ok noSuitableModelResult, [])
  | some selected =>
      let prompt := buildUniversalPrompt concept side
      match generateCardBody env concept side quality selected prompt with
      | (.ok r, evs) => (.ok r, evs)
      | (.error e, evs) =>
          (.ok { success := false
                 error_message := some ("Generation failed: " ++ e.msg)
                 model_used := some selected.value }, evs)

/-- `@dataclass BatchRequest` from `batch_processor.py` (the free-form
`metadata` dict carries no control flow and is omitted). -/
structure BatchRequest where
  concept : String
  side : String
  quality : String := "production"
  model : Option String := none
  priority : Int := 1
  deriving DecidableEq, Repr

/-- `@dataclass BatchResult` from `batch_processor.py` (again without the
pass-through `metadata` dict). -/
structure BatchResult where
  concept : String
  side : String
  success : Bool
  filepath : Option String := none
  model_used : Option String := none
  processing_time : Int := 0
  cost_estimate : Int := 0
  error_message : Option String := none
  deriving DecidableEq, Repr

/-- `self.active_requests`: the per-provider in-flight counters, a dict with
exactly the two provider keys. -/
structure ActiveRequests where
  gpt : Int
  gemini : Int
  deriving DecidableEq, Repr

/-- The key normalization shared by `_check_rate_limit`,
`_increment_active_requests` and `_decrement_active_requests`. -/
def rateLimitKey (modelName : String) : String :=
  if strContains modelName.toLower "gpt" then "gpt-image-1"
  else if strContains modelName.toLower "gemini" then
    "gemini-2.5-flash-image-preview"
  else modelName

/-- `self.active_requests.get(key, 0)`. -/
def ActiveRequests.get (a : ActiveRequests) (key : String) : Int :=
  if key = "gpt-image-1" then a.gpt
  else if key = "gemini-2.5-flash-image-preview" then a.gemini
  else 0

/-- `BatchProcessor._check_rate_limit`. -/
def checkRateLimit (a : ActiveRequests) (maxConcurrentPerModel : Int)
    (modelName : String) : Bool :=
  a.get (rateLimitKey modelName) < maxConcurrentPerModel

/-- `BatchProcessor._increment_active_requests` (`if key in dict` guards the
mutation, so an unknown key such as "auto" is a no-op). -/
def incActive (a : ActiveRequests) (modelName : String) : ActiveRequests :=
  let key := rateLimitKey modelName
  if key = "gpt-image-1" then { a with gpt := a.gpt + 1 }
  else if key = "gemini-2.5-flash-image-preview" then
    { a with gemini := a.gemini + 1 }
  else a

/-- `BatchProcessor._decrement_active_requests` (clamped at 0 via
`max(0, x - 1)`; unknown keys are a no-op). -/
def decActive (a : ActiveRequests) (modelName : String) : ActiveRequests :=
  let key := rateLimitKey modelName
  if key = "gpt-image-1" then { a with gpt := max 0 (a.gpt - 1) }
  else if key = "gemini-2.5-flash-image-preview" then
    { a with gemini := max 0 (a.gemini - 1) }
  else a

/-- `BatchProcessor._calculate_priority`. -/
def calculatePriority (concept side quality : String) : Int :=
  let p1 : Int := 1 +
    (if quality = "production" then 2 else if quality = "review" then 1 else 0)
  let p2 : Int := p1 + (if side = "front" then 1 else 0)
  p2 + (if concept = "Clinical-Precision" then 3
    else if concept = "Athletic-Edge" then 2
    else if concept = "Luxury-Wellness" then 1 else 0)

/-- The shape of the generation engine as the batch processor calls it:
`generate_card(concept, side, model, quality)`, possibly raising. -/
abbrev Engine :=
  String → String → ModelType → String →
    Except PyErr GenerationResult × List FsEvent

/-- `model = ModelType(request.model)` with the `ValueError` handler that
keeps `AUTO` on an unrecognized string. -/
def requestModelType (req : BatchRequest) : ModelType :=
  match req.model with
  | none => .auto
  | some s => (ModelType.ofValue s).getD .auto

/-- `model_name = model.value if model != ModelType.AUTO else "auto"`. -/
def requestModelName (req : BatchRequest) : String :=
  let m := requestModelType req
  if m ≠ .auto then m.value else "auto"

/-- `BatchProcessor._process_single_request`, over an abstract engine. The
counter is incremented before the engine call and the `try/finally`
decrements it on both the normal and the exceptional exit; the outer
`except` then converts an engine exception into a failed `BatchResult`.
(The `_check_rate_limit` / `time.sleep(1)` pair has no effect observable in
this sequential model; the C7 scheduler model covers its interleaving.) -/
def processSingleRequestWith (engine : Engine) (a : ActiveRequests)
    (req : BatchRequest) : BatchResult × ActiveRequests × List FsEvent :=
  let model := requestModelType req
  let modelName := requestModelName req
  let a1 := incActive a modelName
  match engine req.concept req.side model req.quality with
  | (.ok r, evs) =>
      ({ concept := req.concept
         side := req.side
         success := r.success
         filepath := r.filepath
         model_used := r.model_used
         processing_time := 0
         cost_estimate := r.cost_estimate
         error_message := r.error_message },
       decActive a1 modelName, evs)
  | (.error e, evs) =>
      ({ concept := req.concept
         side := req.side
         success := false
         processing_time := 0
         error_message := some e.msg },
       decActive a1 modelName, evs)

/-- `_process_single_request` with the real engine. -/
def processSingleRequest (env : Env) (a : ActiveRequests)
    (req : BatchRequest) : BatchResult × ActiveRequests × List FsEvent :=
  processSingleRequestWith (generateCard env) a req

/-- Stable insertion for the descending-priority sort: a newly arriving
request goes after existing requests of equal priority. -/
def insertByPriority (r : BatchRequest) :
    List BatchRequest → List BatchRequest
  | [] => [r]
  | x :: xs =>
      if x.priority < r.priority then r :: x :: xs
      else x :: insertByPriority r xs

/-- `requests.sort(key=lambda r: r.priority, reverse=True)` (Python's sort
is stable). -/
def sortByPriorityDesc (reqs : List BatchRequest) : List BatchRequest :=
  reqs.foldl (fun acc r => insertByPriority r acc) []

/-- `successful = sum(1 for r in results if r.success)`. -/
def successCount (rs : List BatchResult) : Nat :=
  (rs.filter (fun r => r.success)).length

/-- Count of the failed results, `len(requests) - successful` in the code. -/
def failureCount (rs : List BatchResult) : Nat :=
  (rs.filter (fun r => ¬ r.success)).length

/-- `total_cost = sum(r.cost_estimate for r in results)`. -/
def totalCostOf (rs : List BatchResult) : Int :=
  (rs.map (fun r => r.cost_estimate)).sum

/-- The batch-completion figures computed at the end of
`_process_requests` together with the returned results list. -/
structure BatchStats where
  results : List BatchResult
  successful : Nat
  failed : Nat
  total_cost : Int
  deriving DecidableEq, Repr

/-- The error result built in the `except` branch of the
`as_completed` loop when `future.result()` re-raises. -/
def mkErrorResult (req : BatchRequest) (e : PyErr) : BatchResult :=
  { concept := req.concept
    side := req.side
    success := false
    error_message := some e.msg }

/-- A submitted batch task as the orchestrator's `future.result()` sees it:
either a `BatchResult` or a re-raised exception. -/
abbrev BatchTask := BatchRequest → Except PyErr BatchResult

/-- `BatchProcessor._process_requests` over abstract per-item tasks.
`as_completed` yields futures in a scheduler-dependent completion order;
none of the properties below depend on that order, so the submission
(sorted) order is used. The `on_progress` invocations
(`completed / len(requests) * 100`) happen only inside the loop, where the
batch is necessarily non-empty, and are not recorded; the final
`avg_time_per_card = total_time / len(requests)` in the completion log
raises `ZeroDivisionError` on an empty batch.

The loop body is `resultsOf`: one outcome per submitted request, a raising
`future.result()` converted into an error result. -/
def resultsOf (task : BatchTask) (reqs : List BatchRequest) :
    List BatchResult :=
  (sortByPriorityDesc reqs).map fun req =>
    match task req with
    | .ok r => r
    | .error e => mkErrorResult req e

/-- The tail of `_process_requests`: the returned results together with the
completion statistics, or the `ZeroDivisionError` for an empty batch. -/
def processRequestsAbs (task : BatchTask) (reqs : List BatchRequest) :
    Except PyErr BatchStats :=
  if reqs.length = 0 then .error .zeroDivisionError
  else .ok { results := resultsOf task reqs
             successful := successCount (resultsOf task reqs)
             failed := reqs.length - successCount (resultsOf task reqs)
             total_cost := totalCostOf (resultsOf task reqs) }

/-- `_process_requests` with the real per-item worker. The worker's
`BatchResult` does not depend on the shared counters, so they are fixed at
their initial value here. -/
def processRequests (env : Env) (reqs : List BatchRequest) :
    Except PyErr BatchStats :=
  processRequestsAbs
    (fun req => .ok (processSingleRequestWith (generateCard env) ⟨0, 0⟩ req).1)
    reqs

/-- Control point of one batch worker inside `_process_single_request`
(lines 238-250 of `batch_processor.py`), for a batch whose every item
targets the same provider:
`start` = about to run `_check_rate_limit`;
`sleeping` = the check failed, inside `time.sleep(1)`;
`ready` = past the check or past the sleep, about to run
`_increment_active_requests`;
`calling` = counter incremented, inside `workflow.generate_card`;
`finished` = counter decremented, done. -/
inductive WPhase where
  | start
  | sleeping
  | ready
  | calling
  | finished
  deriving DecidableEq, Repr

/-- Interleaving state of a batch of same-provider workers: the provider's
`active_requests` counter, each worker's control point, and the largest
number of simultaneously in-flight provider calls seen so far. -/
structure SchedState where
  counter : Int
  phases : List WPhase
  peak : Nat
  deriving DecidableEq, Repr

/-- Number of workers currently inside the provider call. -/
def inFlight (phases : List WPhase) : Nat :=
  (phases.filter (fun p => p == WPhase.calling)).length

/-- One worker's next statement, as the source orders them: the failed
check leads to a single sleep after which the worker increments and calls
WITHOUT re-running the check; the decrement is `max(0, c - 1)`. -/
def stepPhase (cap : Int) (counter : Int) : WPhase → WPhase × Int
  | .start => if counter < cap then (.ready, counter) else (.sleeping, counter)
  | .sleeping => (.ready, counter)
  | .ready => (.calling, counter + 1)
  | .calling => (.finished, max 0 (counter - 1))
  | .finished => (.finished, counter)

/-- Run one scheduler step of worker `w`. -/
def stepWorker (cap : Int) (s : SchedState) (w : Nat) : SchedState :=
  match s.phases.get? w with
  | none => s
  | some ph =>
      let next := stepPhase cap s.counter ph
      let phases2 := s.phases.set w next.1
      { counter := next.2
        phases := phases2
        peak := max s.peak (inFlight phases2) }

/-- Run a whole schedule (a list of worker indices, executed in order). -/
def runSched (cap : Int) (s : SchedState) : List Nat → SchedState
  | [] => s
  | w :: ws => runSched cap (stepWorker cap s w) ws

/-- Initial state: counter 0, `n` workers at their rate-limit check. -/
def initSched (n : Nat) : SchedState :=
  { counter := 0, phases := List.replicate n .start, peak := 0 }

/-- A fully healthy concrete environment for witnesses: both providers
available, every provider call returns byte `[7]`, which decodes to a
1536×1024 RGB image, writes succeed, clock fixed at 2025-01-02 03:04:05. -/
def envOk : Env :=
  { openai_available := true
    gemini_available := true
    decode := fun _ => some { width := 1536, height := 1024, mode := "RGB" }
    gptCall := fun _ _ _ => .ok [7]
    geminiCall := fun _ => .ok (some [7])
    writeOutcome := fun _ => .ok ()
    now := (2025, 1, 2, 3, 4, 5) }

/-- A concrete environment where only Gemini is available and the provider
returns bytes decoding to a degenerate 1×1 image. -/
def envTiny : Env :=
  { openai_available := false
    gemini_available := true
    decode := fun _ => some { width := 1, height := 1, mode := "RGB" }
    gptCall := fun _ _ _ => .error "no client"
    geminiCall := fun _ => .ok (some [1])
    writeOutcome := fun _ => .ok ()
    now := (2025, 1, 2, 3, 4, 5) }

/-- Concrete batch request with every optional field defaulted. -/
def reqAuto : BatchRequest :=
  { concept := "Clinical-Precision", side := "front" }

/-- Concrete batch request explicitly targeting GPT Image 1. -/
def reqGpt : BatchRequest :=
  { concept := "Clinical-Precision", side := "front"
    model := some "gpt-image-1" }

/-- An engine stub that always raises, for exercising the orchestrator's
defensive paths. -/
def engineBoom : Engine :=
  fun _ _ _ _ => (.error (.valueError "boom"), [])

/-- The output path `generate_card` produces under `envOk` for
`reqAuto` at production quality. -/
def fpProd : String :=
  "output/production/ASL_Alex_Shafiro_Clinical-Precision_front_GPT1_20250102_030405.png"

/-- The batch outcome `_process_single_request` produces under `envOk`
for `reqAuto`. -/
def resultProd : BatchResult :=
  { concept := "Clinical-Precision", side := "front", success := true
    filepath := some fpProd, model_used := some "gpt-image-1"
    processing_time := 0, cost_estimate := 190 }

/-- The batch statistics `_process_requests` produces under `envOk` for
the one-item batch `[reqAuto]`. -/
def statsProd : BatchStats :=
  { results := [resultProd], successful := 1, failed := 0, total_cost := 190 }

/-- Shape shared by every `GenerationResult` the engine can produce: the
cost estimate is non-negative, and a failed result carries an error
message and a zero cost. -/
def ResultOk (r : GenerationResult) : Prop :=
  0 ≤ r.cost_estimate ∧
    (r.success = false → (∃ m, r.error_message = some m) ∧ r.cost_estimate = 0)

lemma COSTS_nonneg (key : String) : 0 ≤ COSTS key := by
  unfold COSTS
  split_ifs <;> norm_num

lemma qualitySettings_cost_nonneg (q : String) :
    0 ≤ (qualitySettings q).cost := by
  unfold qualitySettings
  split_ifs <;>
    first
      | exact COSTS_nonneg "gpt_image_1_low"
      | exact COSTS_nonneg "gpt_image_1_medium"
      | exact COSTS_nonneg "gpt_image_1_high"

lemma generateWithGptImage_resultOk (env : Env) (prompt quality : String) :
    ResultOk (generateWithGptImage env prompt quality) := by
  unfold generateWithGptImage
  split
  · exact ⟨le_refl 0, fun _ => ⟨⟨_, rfl⟩, rfl⟩⟩
  · split
    · exact ⟨le_refl 0, fun _ => ⟨⟨_, rfl⟩, rfl⟩⟩
    · exact ⟨qualitySettings_cost_nonneg _, fun h => nomatch h⟩

lemma generateWithGemini_resultOk (env : Env) (prompt : String) :
    ResultOk (generateWithGemini env prompt) := by
  unfold generateWithGemini
  split
  · exact ⟨le_refl 0, fun _ => ⟨⟨_, rfl⟩, rfl⟩⟩
  · split
    · exact ⟨le_refl 0, fun _ => ⟨⟨_, rfl⟩, rfl⟩⟩
    · split
      · exact ⟨le_refl 0, fun _ => ⟨⟨_, rfl⟩, rfl⟩⟩
      · split
        · exact ⟨le_refl 0, fun _ => ⟨⟨_, rfl⟩, rfl⟩⟩
        · exact ⟨COSTS_nonneg "gemini_flash", fun h => nomatch h⟩


lemma resultOk_failure (r : GenerationResult) (hc : r.cost_estimate = 0)
    (hm : ∃ m, r.error_message = some m) : ResultOk r :=
  ⟨le_of_eq hc.symm, fun _ => ⟨hm, hc⟩⟩

lemma persistStep_resultOk (env : Env)
    (concept side quality modelValue : String) (result : GenerationResult)
    (hok : ResultOk result) (r : GenerationResult) (evs : List FsEvent)
    (h : persistStep env concept side quality modelValue result =
      (.ok r, evs)) : ResultOk r := by
  unfold persistStep at h
  by_cases hs : result.success = true
  · rw [if_pos hs] at h
    rcases hsave : saveImage env (result.image_data.getD []) concept side
        modelValue (if quality = "production" then productionDir else draftsDir)
      with ⟨exc, evs2⟩
    rw [hsave] at h
    cases exc with
    | ok fp =>
        have hr : r = { result with filepath := some fp, processing_time := 0 } := by
          simpa using (congrArg Prod.fst h).symm
        subst hr
        refine ⟨hok.1, fun hfail => ?_⟩
        rw [show ({ result with filepath := some fp, processing_time := 0 } :
          GenerationResult).success = result.success from rfl] at hfail
        rw [hfail] at hs
        exact absurd hs (by simp)
    | error e => exact absurd (congrArg Prod.fst h) (by simp)
  · rw [if_neg hs] at h
    have hr : r = result := by
      simpa using (congrArg Prod.fst h).symm
    subst hr
    exact hok

lemma generateCardBody_resultOk (env : Env) (concept side quality : String)
    (selected : ModelType) (prompt : String) (r : GenerationResult)
    (evs : List FsEvent)
    (h : generateCardBody env concept side quality selected prompt =
      (.ok r, evs)) : ResultOk r := by
  cases selected with
  | gpt_image_1 =>
      simp only [generateCardBody] at h
      exact persistStep_resultOk env concept side quality _ _
        (generateWithGptImage_resultOk env prompt quality) r evs h
  | gemini_flash =>
      simp only [generateCardBody] at h
      exact persistStep_resultOk env concept side quality _ _
        (generateWithGemini_resultOk env prompt) r evs h
  | auto =>
      simp only [generateCardBody] at h
      have h1 := congrArg Prod.fst h
      simp only [Prod.fst] at h1
      have hr : r = { success := false, error_message := some ("Unknown model: " ++ ModelType.auto.value) } := by
        simpa using h1.symm
      subst hr
      exact resultOk_failure _ rfl ⟨_, rfl⟩

lemma generateCard_eq_none (env : Env) (concept side : String)
    (model : ModelType) (quality : String)
    (h : selectModel env.openai_available env.gemini_available model quality =
      none) :
    generateCard env concept side model quality =
      (.ok noSuitableModelResult, []) := by
  unfold generateCard
  rw [h]

lemma generateCard_eq_some (env : Env) (concept side : String)
    (model : ModelType) (quality : String) (selected : ModelType)
    (h : selectModel env.openai_available env.gemini_available model quality =
      some selected) :
    generateCard env concept side model quality =
      (match generateCardBody env concept side quality selected
          (buildUniversalPrompt concept side) with
       | (.ok r, evs) => (.ok r, evs)
       | (.error e, evs) =>
           (.ok { success := false
                  error_message := some ("Generation failed: " ++ e.msg)
                  model_used := some selected.value }, evs)) := by
  unfold generateCard
  rw [h]

lemma generateCard_resultOk (env : Env) (concept side : String)
    (model : ModelType) (quality : String) :
    ∃ r evs, generateCard env concept side model quality = (.ok r, evs) ∧
      ResultOk r := by
  cases hsel : selectModel env.openai_available env.gemini_available model
      quality with
  | none =>
      exact ⟨noSuitableModelResult, [],
        generateCard_eq_none env concept side model quality hsel,
        resultOk_failure _ rfl ⟨_, rfl⟩⟩
  | some selected =>
      rcases hb : generateCardBody env concept side quality selected
          (buildUniversalPrompt concept side) with ⟨exc, evs⟩
      cases exc with
      | ok r =>
          refine ⟨r, evs, ?_,
            generateCardBody_resultOk env concept side quality selected _ r
              evs hb⟩
          rw [generateCard_eq_some env concept side model quality selected hsel,
            hb]
      | error e =>
          refine ⟨{ success := false
                    error_message := some ("Generation failed: " ++ e.msg)
                    model_used := some selected.value }, evs, ?_,
            resultOk_failure _ rfl ⟨_, rfl⟩⟩
          rw [generateCard_eq_some env concept side model quality selected hsel,
            hb]

lemma decActive_incActive (a : ActiveRequests) (mn : String)
    (hg : 0 ≤ a.gpt) (hm : 0 ≤ a.gemini) :
    decActive (incActive a mn) mn = a := by
  obtain ⟨g, m⟩ := a
  have hg' : (0 : ℤ) ≤ g := hg
  have hm' : (0 : ℤ) ≤ m := hm
  unfold incActive decActive
  by_cases h1 : rateLimitKey mn = "gpt-image-1"
  · simp only [h1, reduceIte]
    have e1 : (0 : ℤ) ⊔ (g + 1 - 1) = g := by omega
    rw [e1]
  · by_cases h2 : rateLimitKey mn = "gemini-2.5-flash-image-preview"
    · have hne : ("gemini-2.5-flash-image-preview" : String) ≠ "gpt-image-1" :=
        by decide
      simp only [h2, if_neg hne, reduceIte]
      have e2 : (0 : ℤ) ⊔ (m + 1 - 1) = m := by omega
      rw [e2]
    · simp [h1, h2]

lemma incActive_nonneg (a : ActiveRequests) (mn : String)
    (hg : 0 ≤ a.gpt) (hm : 0 ≤ a.gemini) :
    0 ≤ (incActive a mn).gpt ∧ 0 ≤ (incActive a mn).gemini := by
  obtain ⟨g, m⟩ := a
  have hg' : (0 : ℤ) ≤ g := hg
  have hm' : (0 : ℤ) ≤ m := hm
  unfold incActive
  by_cases h1 : rateLimitKey mn = "gpt-image-1"
  · simp only [h1, reduceIte]
    exact ⟨by omega, hm'⟩
  · by_cases h2 : rateLimitKey mn = "gemini-2.5-flash-image-preview"
    · have hne : ("gemini-2.5-flash-image-preview" : String) ≠ "gpt-image-1" :=
        by decide
      simp only [h2, if_neg hne, reduceIte]
      exact ⟨hg', by omega⟩
    · simp only [if_neg h1, if_neg h2]
      exact ⟨hg', hm'⟩

lemma totalCostOf_filter (rs : List BatchResult)
    (h : ∀ r ∈ rs, r.success = false → r.cost_estimate = 0) :
    totalCostOf rs =
      ((rs.filter (fun r => r.success)).map
        (fun r => r.cost_estimate)).sum := by
  induction rs with
  | nil => rfl
  | cons x xs ih =>
      have hx := h x (List.mem_cons_self x xs)
      have hxs : ∀ r ∈ xs, r.success = false → r.cost_estimate = 0 :=
        fun r hr => h r (List.mem_cons_of_mem _ hr)
      cases hsx : x.success with
      | true =>
          rw [List.filter_cons_of_pos (by simp [hsx])]
          simp only [totalCostOf, List.map_cons, List.sum_cons] at ih ⊢
          rw [ih hxs]
      | false =>
          rw [List.filter_cons_of_neg (by simp [hsx])]
          simp only [totalCostOf, List.map_cons, List.sum_cons] at ih ⊢
          rw [ih hxs, hx hsx, zero_add]

lemma processSingleRequestWith_cost (env : Env) (a : ActiveRequests)
    (req : BatchRequest) :
    0 ≤ (processSingleRequestWith (generateCard env) a req).1.cost_estimate ∧
      ((processSingleRequestWith (generateCard env) a req).1.success = false →
        (processSingleRequestWith (generateCard env) a req).1.cost_estimate
          = 0) := by
  obtain ⟨g, evs, hg, hok⟩ := generateCard_resultOk env req.concept req.side
    (requestModelType req) req.quality
  unfold processSingleRequestWith
  simp only [hg]
  exact ⟨hok.1, fun hfail => (hok.2 hfail).2⟩

lemma getQ_set_self {α : Type} :
    ∀ (l : List α) (i : Nat) (b a : α),
      l.get? i = some b → (l.set i a).get? i = some a := by
  intro l
  induction l with
  | nil => intro i b a h; simp at h
  | cons x xs ih =>
      intro i b a h
      cases i with
      | zero => simp
      | succ n => simpa using ih n b a (by simpa using h)

lemma stepWorker_phases_length (cap : Int) (s : SchedState) (w : Nat) :
    (stepWorker cap s w).phases.length = s.phases.length := by
  unfold stepWorker
  cases hp : s.phases.get? w with
  | none => rfl
  | some ph => simp [List.length_set]

lemma inFlight_le_length (phases : List WPhase) :
    inFlight phases ≤ phases.length :=
  List.length_filter_le _ _

lemma stepWorker_invariant (cap : Int) (s : SchedState) (w : Nat) (n : Nat)
    (hlen : s.phases.length = n) (hpeak : s.peak ≤ n) :
    (stepWorker cap s w).phases.length = n ∧
      (stepWorker cap s w).peak ≤ n := by
  refine ⟨by rw [stepWorker_phases_length, hlen], ?_⟩
  unfold stepWorker
  cases hp : s.phases.get? w with
  | none => exact hpeak
  | some ph =>
      dsimp only
      refine max_le hpeak ?_
      calc inFlight (s.phases.set w (stepPhase cap s.counter ph).1)
          ≤ (s.phases.set w (stepPhase cap s.counter ph).1).length :=
            inFlight_le_length _
        _ = s.phases.length := List.length_set _ _ _
        _ = n := hlen

lemma runSched_peak_le (cap : Int) (sched : List Nat) :
    ∀ (s : SchedState) (n : Nat), s.phases.length = n → s.peak ≤ n →
      (runSched cap s sched).peak ≤ n := by
  induction sched with
  | nil => intro s n _ hpeak; exact hpeak
  | cons w ws ih =>
      intro s n hlen hpeak
      obtain ⟨h1, h2⟩ := stepWorker_invariant cap s w n hlen hpeak
      exact ih _ _ h1 h2

/-- C1: the batch orchestrator is claimed to return exactly N outcomes with
successes + failures = N for every batch, N = 0 included, converting each
raising item into a failure outcome. The code violates the N = 0 case: the
completion-statistics line divides the elapsed time by `len(requests)`, so
an empty batch raises `ZeroDivisionError` out of `_process_requests`
(first conjunct). For a non-empty batch the per-item behaviour is as
claimed: a 2-item batch whose second item raises still yields 2 outcomes,
1 success plus 1 failure carrying the exception text (second conjunct). -/
theorem c1_empty_batch_zero_division :
    processRequestsAbs
      (fun req => .ok (mkErrorResult req (.valueError "boom"))) [] =
      .error .zeroDivisionError ∧
    processRequestsAbs
      (fun req =>
        if req.side = "front" then
          .ok { concept := req.concept, side := req.side, success := true }
        else .error (.valueError "boom"))
      [{ concept := "Clinical-Precision", side := "front" },
       { concept := "Clinical-Precision", side := "back" }] =
      .ok { results :=
              [{ concept := "Clinical-Precision", side := "front",
                 success := true },
               { concept := "Clinical-Precision", side := "back",
                 success := false, error_message := some "boom" }]
            successful := 1
            failed := 1
            total_cost := 0 } := by
  constructor
  · rfl
  · decide

/-- C2: `_select_model` implements exactly the spec's selection rule — an
explicitly requested provider is used iff its availability flag is set,
otherwise the auto rule applies (production prefers GPT Image 1, draft and
review prefer Gemini, each falling back to the other available provider),
and `none` results only when neither provider is available. Stated as a
refinement: for every quality tier, requested model and flag combination,
the code's `selectModel` agrees with the spec-modelled
`specSelectProvider`. -/
theorem c2_select_model_matches_spec_rule
    (openaiAvailable geminiAvailable : Bool) (requested : ModelType)
    (quality : String)
    (hq : quality = "draft" ∨ quality = "review" ∨ quality = "production") :
    selectModel openaiAvailable geminiAvailable requested quality =
      specSelectProvider openaiAvailable geminiAvailable requested quality := by
  rcases hq with h | h | h <;> subst h <;>
    cases openaiAvailable <;> cases geminiAvailable <;> cases requested <;> rfl

/-- Witness for C2 at a concrete input: requested GPT Image 1, only Gemini
available, production quality — both the code and the spec rule fall back
to Gemini. -/
theorem c2_select_model_witness :
    selectModel false true ModelType.gpt_image_1 "production" =
      specSelectProvider false true ModelType.gpt_image_1 "production" :=
  c2_select_model_matches_spec_rule false true ModelType.gpt_image_1
    "production" (Or.inr (Or.inr rfl))

lemma processRequestsAbs_ok (task : BatchTask) (reqs : List BatchRequest)
    (hne : reqs.length ≠ 0) :
    processRequestsAbs task reqs =
      .ok { results := resultsOf task reqs
            successful := successCount (resultsOf task reqs)
            failed := reqs.length - successCount (resultsOf task reqs)
            total_cost := totalCostOf (resultsOf task reqs) } := by
  unfold processRequestsAbs
  rw [if_neg hne]

/-- C3: for every completed batch, the reported total cost equals the sum
of `cost_estimate` over the successful outcomes only (the code sums over
all outcomes, but every failed outcome's cost is exactly 0), and every
outcome's `cost_estimate` is non-negative. -/
theorem c3_total_cost_successful_only (env : Env) (reqs : List BatchRequest)
    (stats : BatchStats) (h : processRequests env reqs = .ok stats) :
    stats.total_cost =
      ((stats.results.filter (fun r => r.success)).map
        (fun r => r.cost_estimate)).sum ∧
    ∀ r ∈ stats.results, 0 ≤ r.cost_estimate := by
  have hmem : ∀ r ∈ resultsOf
      (fun req =>
        .ok (processSingleRequestWith (generateCard env) ⟨0, 0⟩ req).1) reqs,
      (r.success = false → r.cost_estimate = 0) ∧ 0 ≤ r.cost_estimate := by
    intro r hr
    unfold resultsOf at hr
    obtain ⟨req, hreq, hr2⟩ := List.mem_map.mp hr
    subst hr2
    exact ⟨(processSingleRequestWith_cost env ⟨0, 0⟩ req).2,
      (processSingleRequestWith_cost env ⟨0, 0⟩ req).1⟩
  unfold processRequests at h
  by_cases hlen : reqs.length = 0
  · unfold processRequestsAbs at h
    rw [if_pos hlen] at h
    simp at h
  · rw [processRequestsAbs_ok _ _ hlen] at h
    have hs := Except.ok.inj h
    subst hs
    exact ⟨totalCostOf_filter _ (fun r hr hfail => (hmem r hr).1 hfail),
      fun r hr => (hmem r hr).2⟩

/-- Witness for C3: the one-item batch `[reqAuto]` under `envOk` completes
with total cost 190 (0.19 USD), the cost of its single successful
outcome. -/
theorem c3_total_cost_witness :
    statsProd.total_cost =
      ((statsProd.results.filter (fun r => r.success)).map
        (fun r => r.cost_estimate)).sum ∧
    ∀ r ∈ statsProd.results, 0 ≤ r.cost_estimate :=
  c3_total_cost_successful_only envOk [reqAuto] statsProd (by decide)

/-- C4: `generate_card` never raises across its public boundary: for every
environment and input it returns a `GenerationResult` (the `try/except`
converts every exception from the body), and every failed result carries a
populated error message. -/
theorem c4_generate_card_never_raises (env : Env) (concept side : String)
    (model : ModelType) (quality : String) :
    ∃ r evs, generateCard env concept side model quality = (.ok r, evs) ∧
      (r.success = false → ∃ msg, r.error_message = some msg) := by
  obtain ⟨r, evs, hgen, hok⟩ :=
    generateCard_resultOk env concept side model quality
  exact ⟨r, evs, hgen, fun hfail => (hok.2 hfail).1⟩

/-- C5: when the provider returns bytes that fail validation, the outcome
has `success = false` with the validation failure wrapped in its error
message, and nothing is written to disk — persistence runs only after
validation succeeds. Stated for the spec's Scenario B shape: draft
quality, Gemini available, GPT unavailable, auto selection. -/
theorem c5_invalid_image_discarded (env : Env) (concept side : String)
    (bs : Bytes) (e : PyErr)
    (hopenai : env.openai_available = false)
    (hgemini : env.gemini_available = true)
    (hresp : env.geminiCall (buildUniversalPrompt concept side) = .ok (some bs))
    (hne : bs ≠ [])
    (hval : validateImage env.decode bs = .error e) :
    generateCard env concept side ModelType.auto "draft" =
      (.ok { success := false
             model_used := some "gemini-2.5-flash-image-preview"
             error_message := some ("Gemini generation failed: " ++ e.msg) },
       []) := by
  have hsel : selectModel env.openai_available env.gemini_available
      ModelType.auto "draft" = some ModelType.gemini_flash := by
    rw [hopenai, hgemini]
    decide
  have hempty : bs.isEmpty = false := by
    cases bs with
    | nil => exact absurd rfl hne
    | cons x xs => rfl
  have hgem : generateWithGemini env (buildUniversalPrompt concept side) =
      { success := false
        model_used := some "gemini-2.5-flash-image-preview"
        error_message := some ("Gemini generation failed: " ++ e.msg) } := by
    unfold generateWithGemini
    rw [hresp]
    simp [hempty, hval]
  rw [generateCard_eq_some env concept side ModelType.auto "draft"
    ModelType.gemini_flash hsel]
  simp only [generateCardBody]
  rw [hgem]
  rfl

/-- Witness for C5: under `envTiny` (only Gemini available, provider
returns a 1×1 image) a draft request fails with the validation message and
produces no filesystem events. -/
theorem c5_invalid_image_witness :
    generateCard envTiny "Clinical-Precision" "front" ModelType.auto "draft" =
      (.ok { success := false
             model_used := some "gemini-2.5-flash-image-preview"
             error_message := some ("Gemini generation failed: " ++
               "Image validation failed: Generated image resolution too low") },
       []) :=
  c5_invalid_image_discarded envTiny "Clinical-Precision" "front" [1]
    (.valueError "Image validation failed: Generated image resolution too low")
    rfl rfl rfl (by decide) (by decide)

/-- C6: the result validator accepts an image iff it decodes, both
dimensions are at least 512 pixels, and the color mode is RGB or RGBA; in
particular a 1×1 image fails, a 1536×1024 RGB image passes, and a
grayscale-mode (`"L"`) image fails. -/
theorem c6_validator_characterization :
    (∀ (decode : Bytes → Option PILImage) (data : Bytes),
      validateImage decode data = .ok () ↔
        ∃ img, decode data = some img ∧ 512 ≤ img.width ∧ 512 ≤ img.height ∧
          (img.mode = "RGB" ∨ img.mode = "RGBA")) ∧
    validateImage (fun _ => some { width := 1, height := 1, mode := "RGB" })
      [1] ≠ .ok () ∧
    validateImage
      (fun _ => some { width := 1536, height := 1024, mode := "RGB" })
      [7] = .ok () ∧
    validateImage
      (fun _ => some { width := 1536, height := 1024, mode := "L" })
      [7] ≠ .ok () := by
  refine ⟨?_, by decide, by decide, by decide⟩
  intro decode data
  unfold validateImage
  cases hd : decode data with
  | none => simp
  | some img =>
      dsimp only
      by_cases h1 : img.width < 512 ∨ img.height < 512
      · rw [if_pos h1]
        constructor
        · intro h
          exact absurd h (by simp)
        · rintro ⟨img2, himg, hw, hh, hm⟩
          obtain rfl := Option.some.inj himg
          exact ((by omega : False)).elim
      · rw [if_neg h1]
        by_cases h2 : ¬(img.mode = "RGB" ∨ img.mode = "RGBA")
        · rw [if_pos h2]
          constructor
          · intro h
            exact absurd h (by simp)
          · rintro ⟨img2, himg, hw, hh, hm⟩
            obtain rfl := Option.some.inj himg
            exact absurd hm h2
        · rw [if_neg h2]
          push_neg at h1
          constructor
          · intro _
            exact ⟨img, rfl, h1.1, h1.2, not_not.mp h2⟩
          · intro _
            rfl

/-- C7 counterexample: the claim says that with
`max_concurrent_per_provider = 2` the number of simultaneously in-flight
calls to the targeted provider never exceeds 2 for any `max_workers`, a
denied worker blocking and retrying the slot check. In the code the slot
check is not retried: a denied worker sleeps once and then increments and
proceeds. With 3 workers all targeting GPT Image 1, the schedule below
(two workers pass the check and enter their calls, the third fails the
check at counter 2, sleeps, then proceeds anyway) reaches 3 simultaneous
in-flight calls. -/
theorem c7_cap_exceeded_counterexample :
    (runSched 2 (initSched 3) [0, 0, 1, 1, 2, 2, 2]).peak = 3 ∧
    inFlight (runSched 2 (initSched 3) [0, 0, 1, 1, 2, 2, 2]).phases = 3 ∧
    2 < (runSched 2 (initSched 3) [0, 0, 1, 1, 2, 2, 2]).peak := by
  decide

/-- C7 as amended: the per-provider slot check is advisory only — a worker
denied a slot moves from its sleep directly to the increment-and-call step
without re-running the check and without touching the counter, so the
number of simultaneously in-flight calls to a provider is bounded only by
the number of workers (`max_workers`), not by
`max_concurrent_per_provider`. -/
theorem c7_slot_check_advisory :
    (∀ (cap : Int) (n : Nat) (sched : List Nat),
      (runSched cap (initSched n) sched).peak ≤ n) ∧
    (∀ (cap : Int) (s : SchedState) (w : Nat),
      s.phases.get? w = some WPhase.sleeping →
      (stepWorker cap s w).phases.get? w = some WPhase.ready ∧
      (stepWorker cap s w).counter = s.counter) := by
  constructor
  · intro cap n sched
    exact runSched_peak_le cap sched (initSched n) n (by simp [initSched])
      (Nat.zero_le n)
  · intro cap s w hrw
    unfold stepWorker
    rw [hrw]
    exact ⟨getQ_set_self s.phases w WPhase.sleeping WPhase.ready hrw, rfl⟩

/-- Witness for C7's amended statement: a single sleeping worker at
counter 2 steps to the increment-and-call point with the counter
unchanged. -/
theorem c7_slot_check_advisory_witness :
    (stepWorker 2 { counter := 2, phases := [WPhase.sleeping], peak := 0 }
      0).phases.get? 0 = some WPhase.ready ∧
    (stepWorker 2 { counter := 2, phases := [WPhase.sleeping], peak := 0 }
      0).counter = 2 :=
  c7_slot_check_advisory.2 2
    { counter := 2, phases := [WPhase.sleeping], peak := 0 } 0 rfl

/-- C8: the per-provider active-request counters self-balance around every
single-item call: the affected counter is incremented before the engine
call and decremented on both the normal and the exceptional exit, so for
any engine behaviour the counters after `_process_single_request` equal
the counters before, and the intermediate (incremented) state never makes
a counter negative. -/
theorem c8_counters_self_balance (engine : Engine) (a : ActiveRequests)
    (req : BatchRequest) (hg : 0 ≤ a.gpt) (hm : 0 ≤ a.gemini) :
    (processSingleRequestWith engine a req).2.1 = a ∧
    0 ≤ (incActive a (requestModelName req)).gpt ∧
    0 ≤ (incActive a (requestModelName req)).gemini := by
  refine ⟨?_, (incActive_nonneg a _ hg hm).1, (incActive_nonneg a _ hg hm).2⟩
  unfold processSingleRequestWith
  dsimp only
  rcases he : engine req.concept req.side (requestModelType req) req.quality
    with ⟨exc, evs⟩
  cases exc with
  | ok r => exact decActive_incActive a _ hg hm
  | error e => exact decActive_incActive a _ hg hm

/-- Witness for C8: an engine that raises, applied to a GPT-targeting
request at zero counters — the counters return to zero and the
intermediate state is non-negative. -/
theorem c8_counters_witness :
    (processSingleRequestWith engineBoom { gpt := 0, gemini := 0 }
        reqGpt).2.1 = { gpt := 0, gemini := 0 } ∧
    0 ≤ (incActive { gpt := 0, gemini := 0 }
        (requestModelName reqGpt)).gpt ∧
    0 ≤ (incActive { gpt := 0, gemini := 0 }
        (requestModelName reqGpt)).gemini :=
  c8_counters_self_balance engineBoom { gpt := 0, gemini := 0 } reqGpt
    (by decide) (by decide)

lemma saveImage_ok (env : Env) (data : Bytes) (concept side mv dir : String)
    (fp : String) (evs : List FsEvent)
    (h : saveImage env data concept side mv dir = (.ok fp, evs)) :
    fp = dir ++ "/" ++ ("ASL_Alex_Shafiro_" ++ concept ++ "_" ++ side ++ "_"
        ++ modelShort mv ++ "_" ++ fmtTimestamp env.now ++ ".png") ∧
    evs = [.mkdirParents dir, .write fp data] := by
  unfold saveImage at h
  dsimp only at h
  rcases hw : env.writeOutcome (dir ++ "/" ++ ("ASL_Alex_Shafiro_" ++ concept
      ++ "_" ++ side ++ "_" ++ modelShort mv ++ "_" ++ fmtTimestamp env.now
      ++ ".png")) with e | u
  · rw [hw] at h
    exact absurd (congrArg Prod.fst h) (by simp)
  · cases u
    rw [hw] at h
    have h1 := Except.ok.inj (congrArg Prod.fst h)
    refine ⟨h1.symm, ?_⟩
    have h2 : evs = [FsEvent.mkdirParents dir,
        FsEvent.write (dir ++ "/" ++ ("ASL_Alex_Shafiro_" ++ concept ++ "_"
          ++ side ++ "_" ++ modelShort mv ++ "_" ++ fmtTimestamp env.now
          ++ ".png")) data] := by
      simpa using (congrArg Prod.snd h).symm
    rw [h2, h1]

lemma persistStep_success (env : Env) (concept side quality mv : String)
    (result r : GenerationResult) (evs : List FsEvent)
    (h : persistStep env concept side quality mv result = (.ok r, evs))
    (hs : r.success = true) :
    result.success = true ∧
    r.cost_estimate = result.cost_estimate ∧
    ∃ data fp,
      fp = (if quality = "production" then productionDir else draftsDir)
        ++ "/" ++ ("ASL_Alex_Shafiro_" ++ concept ++ "_" ++ side ++ "_"
        ++ modelShort mv ++ "_" ++ fmtTimestamp env.now ++ ".png") ∧
      r.filepath = some fp ∧
      evs = [.mkdirParents
               (if quality = "production" then productionDir else draftsDir),
             .write fp data] := by
  unfold persistStep at h
  by_cases hrs : result.success = true
  · rw [if_pos hrs] at h
    rcases hsave : saveImage env (result.image_data.getD []) concept side mv
        (if quality = "production" then productionDir else draftsDir)
      with ⟨exc, evs2⟩
    rw [hsave] at h
    cases exc with
    | ok fp =>
        obtain ⟨hfp, hevs⟩ := saveImage_ok env (result.image_data.getD [])
          concept side mv _ fp evs2 hsave
        have hr : r = { result with filepath := some fp, processing_time := 0 } := by
          simpa using (congrArg Prod.fst h).symm
        have hevs2 : evs = evs2 := by
          simpa using (congrArg Prod.snd h).symm
        subst hr
        exact ⟨hrs, rfl, result.image_data.getD [], fp, hfp, rfl,
          by rw [hevs2, hevs]⟩
    | error e => exact absurd (congrArg Prod.fst h) (by simp)
  · rw [if_neg hrs] at h
    have hr : r = result := by
      simpa using (congrArg Prod.fst h).symm
    rw [hr] at hs
    exact absurd hs hrs

lemma generateWithGptImage_cost (env : Env) (prompt quality : String)
    (hs : (generateWithGptImage env prompt quality).success = true) :
    (generateWithGptImage env prompt quality).cost_estimate =
      (qualitySettings quality).cost := by
  unfold generateWithGptImage at hs ⊢
  cases hc : env.gptCall prompt (qualitySettings quality).size
      (qualitySettings quality).quality with
  | error e =>
      simp only [hc] at hs
      simp at hs
  | ok bs =>
      simp only [hc] at hs
      cases hv : validateImage env.decode bs with
      | error err =>
          simp only [hv] at hs
          simp at hs
      | ok u =>
          cases u
          simp only [hv]

/-- C9: every successfully persisted image goes to
`{tier_dir}/ASL_Alex_Shafiro_{concept}_{side}_{provider_short}_{timestamp}.png`
with provider short name `GPT1` or `GEMINI`, under `production/` exactly
when the quality is `"production"` and under `drafts/` for every other
quality value, with the directory created (`mkdir parents`) before the
write. -/
theorem c9_output_naming (env : Env) (concept side : String)
    (model : ModelType) (quality : String) (r : GenerationResult)
    (evs : List FsEvent)
    (h : generateCard env concept side model quality = (.ok r, evs))
    (hs : r.success = true) :
    ∃ shortName data fp,
      (shortName = "GPT1" ∨ shortName = "GEMINI") ∧
      fp = (if quality = "production" then productionDir else draftsDir)
        ++ "/" ++ ("ASL_Alex_Shafiro_" ++ concept ++ "_" ++ side ++ "_"
        ++ shortName ++ "_" ++ fmtTimestamp env.now ++ ".png") ∧
      r.filepath = some fp ∧
      evs = [.mkdirParents
               (if quality = "production" then productionDir else draftsDir),
             .write fp data] := by
  cases hsel : selectModel env.openai_available env.gemini_available model
      quality with
  | none =>
      rw [generateCard_eq_none env concept side model quality hsel] at h
      have hr : r = noSuitableModelResult := by
        simpa using (congrArg Prod.fst h).symm
      rw [hr] at hs
      exact absurd hs (by simp [noSuitableModelResult])
  | some selected =>
      rw [generateCard_eq_some env concept side model quality selected hsel]
        at h
      rcases hb : generateCardBody env concept side quality selected
          (buildUniversalPrompt concept side) with ⟨exc, evs2⟩
      rw [hb] at h
      cases exc with
      | error e =>
          have hr : r = { success := false, error_message := some ("Generation failed: " ++ e.msg), model_used := some selected.value } := by
            simpa using (congrArg Prod.fst h).symm
          rw [hr] at hs
          exact absurd hs (by simp)
      | ok r2 =>
          have hre : r2 = r := by
            simpa using congrArg Prod.fst h
          have hevse : evs2 = evs := by
            simpa using congrArg Prod.snd h
          subst hre
          subst hevse
          cases selected with
          | auto =>
              simp only [generateCardBody] at hb
              have hr2 : r2 = { success := false, error_message := some ("Unknown model: " ++ ModelType.auto.value) } := by
                simpa using (congrArg Prod.fst hb).symm
              rw [hr2] at hs
              exact absurd hs (by simp)
          | gpt_image_1 =>
              simp only [generateCardBody] at hb
              obtain ⟨-, -, data, fp, hfp, hrfp, hevsx⟩ :=
                persistStep_success env concept side quality
                  (ModelType.gpt_image_1.value) _ r2 evs2 hb hs
              exact ⟨modelShort (ModelType.gpt_image_1.value), data, fp,
                Or.inl (by decide), hfp, hrfp, hevsx⟩
          | gemini_flash =>
              simp only [generateCardBody] at hb
              obtain ⟨-, -, data, fp, hfp, hrfp, hevsx⟩ :=
                persistStep_success env concept side quality
                  (ModelType.gemini_flash.value) _ r2 evs2 hb hs
              exact ⟨modelShort (ModelType.gemini_flash.value), data, fp,
                Or.inr (by decide), hfp, hrfp, hevsx⟩

/-- Witness for C9: under `envOk`, a production-quality generation writes
`output/production/ASL_Alex_Shafiro_Clinical-Precision_front_GPT1_20250102_030405.png`
after creating the directory. -/
theorem c9_output_naming_witness :
    ∃ shortName data fp,
      (shortName = "GPT1" ∨ shortName = "GEMINI") ∧
      fp = (if "production" = "production" then productionDir else draftsDir)
        ++ "/" ++ ("ASL_Alex_Shafiro_" ++ "Clinical-Precision" ++ "_"
        ++ "front" ++ "_" ++ shortName ++ "_" ++ fmtTimestamp envOk.now
        ++ ".png") ∧
      ({ success := true, image_data := some [7], filepath := some fpProd,
         model_used := some "gpt-image-1", cost_estimate := 190,
         processing_time := 0,
         error_message := none } : GenerationResult).filepath = some fp ∧
      [FsEvent.mkdirParents "output/production", FsEvent.write fpProd [7]] =
        [FsEvent.mkdirParents
           (if "production" = "production" then productionDir else draftsDir),
         FsEvent.write fp data] :=
  c9_output_naming envOk "Clinical-Precision" "front" ModelType.auto
    "production"
    { success := true, image_data := some [7], filepath := some fpProd,
      model_used := some "gpt-image-1", cost_estimate := 190,
      processing_time := 0, error_message := none }
    [FsEvent.mkdirParents "output/production", FsEvent.write fpProd [7]]
    (by decide) rfl

/-- C10: a quality string outside draft/review/production (such as
`"ultra"`) is not rejected: auto-selection falls through to the
availability-based fallback branch (GPT Image 1 when available), the GPT
call silently uses the production-tier parameter row and the production
cost of 190 thousandths of a USD (0.19 USD), yet a successful result is
saved under the `drafts/` directory, not `production/`. -/
theorem c10_unknown_quality_tier (env : Env) (concept side quality : String)
    (hd : quality ≠ "draft") (hrv : quality ≠ "review")
    (hp : quality ≠ "production")
    (hav : env.openai_available = true) :
    selectModel env.openai_available env.gemini_available ModelType.auto
      quality = some ModelType.gpt_image_1 ∧
    qualitySettings quality = qualitySettings "production" ∧
    (∀ (r : GenerationResult) (evs : List FsEvent),
      generateCard env concept side ModelType.auto quality = (.ok r, evs) →
      r.success = true →
      r.cost_estimate = 190 ∧
      ∃ data fp,
        fp = draftsDir ++ "/" ++ ("ASL_Alex_Shafiro_" ++ concept ++ "_"
          ++ side ++ "_" ++ "GPT1" ++ "_" ++ fmtTimestamp env.now
          ++ ".png") ∧
        r.filepath = some fp ∧
        evs = [.mkdirParents draftsDir, .write fp data]) := by
  have hsel : selectModel env.openai_available env.gemini_available
      ModelType.auto quality = some ModelType.gpt_image_1 := by
    unfold selectModel
    rw [hav]
    simp [hd, hrv, hp]
  have hqs : qualitySettings quality = qualitySettings "production" := by
    unfold qualitySettings
    rw [if_neg hd, if_neg hrv, if_neg hp]
    decide
  refine ⟨hsel, hqs, ?_⟩
  intro r evs h hs
  rw [generateCard_eq_some env concept side ModelType.auto quality
    ModelType.gpt_image_1 hsel] at h
  rcases hb : generateCardBody env concept side quality
      ModelType.gpt_image_1 (buildUniversalPrompt concept side)
    with ⟨exc, evs2⟩
  rw [hb] at h
  cases exc with
  | error e =>
      have hr : r = { success := false, error_message := some ("Generation failed: " ++ e.msg), model_used := some ModelType.gpt_image_1.value } := by
        simpa using (congrArg Prod.fst h).symm
      rw [hr] at hs
      exact absurd hs (by simp)
  | ok r2 =>
      have hre : r2 = r := by
        simpa using congrArg Prod.fst h
      have hevse : evs2 = evs := by
        simpa using congrArg Prod.snd h
      subst hre
      subst hevse
      simp only [generateCardBody] at hb
      obtain ⟨hgs, hcost, data, fp, hfp, hrfp, hevsx⟩ :=
        persistStep_success env concept side quality
          (ModelType.gpt_image_1.value) _ r2 evs2 hb hs
      constructor
      · rw [hcost, generateWithGptImage_cost env _ quality hgs, hqs]
        decide
      · refine ⟨data, fp, ?_, hrfp, ?_⟩
        · rw [hfp, if_neg hp,
            show modelShort (ModelType.gpt_image_1.value) = "GPT1" from
              by decide]
        · rw [hevsx, if_neg hp]

/-- Witness for C10 at quality `"ultra"` under `envOk`: GPT Image 1 is
selected, the production parameter row is used, and any successful result
lands under `drafts/`. -/
theorem c10_unknown_quality_witness :
    selectModel envOk.openai_available envOk.gemini_available ModelType.auto
      "ultra" = some ModelType.gpt_image_1 ∧
    qualitySettings "ultra" = qualitySettings "production" ∧
    (∀ (r : GenerationResult) (evs : List FsEvent),
      generateCard envOk "Clinical-Precision" "front" ModelType.auto
        "ultra" = (.ok r, evs) →
      r.success = true →
      r.cost_estimate = 190 ∧
      ∃ data fp,
        fp = draftsDir ++ "/" ++ ("ASL_Alex_Shafiro_" ++ "Clinical-Precision"
          ++ "_" ++ "front" ++ "_" ++ "GPT1" ++ "_" ++ fmtTimestamp envOk.now
          ++ ".png") ∧
        r.filepath = some fp ∧
        evs = [.mkdirParents draftsDir, .write fp data]) :=
  c10_unknown_quality_tier envOk "Clinical-Precision" "front" "ultra"
    (by decide) (by decide) (by decide) rfl
